import Mathlib

/-
  Verification of the agent-vertical TypeScript client and (spec-modelled)
  certification engine.

  The sources under verification are the two HTTP client implementations of
  the agent-vertical package (one delegating transport to the sdk-core
  library, one built directly on the Fetch API), together with the shared
  type definitions in types.ts.  The Python certification engine
  (RuleMatcher, ComplianceChecker, GroundingValidator, CertificationEvaluator)
  is referenced by the package documentation but its code is not among the
  sources, so those components are modelled from the specification; each
  such definition carries a doc comment beginning "Modelled from the spec:".

  Machine integers do not occur: all numbers involved (HTTP status codes,
  timeouts in milliseconds, list lengths) are naturals, and the grounding
  fraction is a rational.
-/

namespace AgentVertical

-- ===========================================================================
-- types.ts : the ApiResult envelope
-- ===========================================================================

/-- Standard error payload returned by the agent-vertical API
(interface ApiError in types.ts: fields error and detail). -/
structure ApiError where
  error : String
  detail : String
deriving DecidableEq, Repr

/-- Result type for all client operations (type ApiResult in types.ts):
either an ok-envelope carrying data, or an error-envelope carrying an
ApiError and a numeric status. -/
inductive ApiResult (T : Type) where
  | ok (data : T)
  | err (error : ApiError) (status : Nat)
deriving DecidableEq, Repr

/-- Abstract view of a parsed JSON response body.  The TypeScript clients
cast the same parsed value either to the payload type T (on success) or to
Partial ApiError (on an HTTP error), so the model records the raw payload
together with the two optional ApiError fields the error branch reads. -/
structure JsonValue where
  payload : String
  errorField : Option String
  detailField : Option String
deriving DecidableEq, Repr

-- ===========================================================================
-- encodeURIComponent (ECMA-262), as used by both clients for path segments
-- ===========================================================================

/-- UTF-8 encoding of a single character, as a list of byte values.
Mirrors the standard UTF-8 layout used when percent-encoding. -/
def utf8Bytes (c : Char) : List Nat :=
  let n := c.toNat
  if n < 128 then [n]
  else if n < 2048 then [192 + n / 64, 128 + n % 64]
  else if n < 65536 then [224 + n / 4096, 128 + (n / 64) % 64, 128 + n % 64]
  else [240 + n / 262144, 128 + (n / 4096) % 64, 128 + (n / 64) % 64, 128 + n % 64]

/-- Uppercase hexadecimal digit for a value below 16. -/
def uriHexDigit (n : Nat) : Char :=
  if n < 10 then Char.ofNat (48 + n) else Char.ofNat (55 + n)

/-- Percent-encoding of one byte: a percent sign followed by two uppercase
hex digits.  For byte values below 256 the extra mod 16 on the high nibble
is the identity, so this is the usual two-digit hex rendering. -/
def percentEncodeByteChars (b : Nat) : List Char :=
  ['%', uriHexDigit (b / 16 % 16), uriHexDigit (b % 16)]

/-- Characters left unescaped by encodeURIComponent (ECMA-262):
ASCII alphanumerics and - _ . ! ~ * apostrophe ( ). -/
def isUnreservedURIChar (c : Char) : Bool :=
  (decide (65 ≤ c.toNat) && decide (c.toNat ≤ 90)) ||
  (decide (97 ≤ c.toNat) && decide (c.toNat ≤ 122)) ||
  (decide (48 ≤ c.toNat) && decide (c.toNat ≤ 57)) ||
  c == '-' || c == '_' || c == '.' || c == '!' || c == '~' || c == '*' ||
  c == Char.ofNat 39 || c == '(' || c == ')'

/-- Encoding of one character under encodeURIComponent: kept verbatim when
unreserved, otherwise each UTF-8 byte is percent-encoded. -/
def encodeCharList (c : Char) : List Char :=
  if isUnreservedURIChar c then [c]
  else ((utf8Bytes c).map percentEncodeByteChars).flatten

/-- The encodeURIComponent builtin both clients apply to caller-supplied
template names and domain identifiers before embedding them in URLs. -/
def encodeURIComponent (s : String) : String :=
  String.mk ((s.data.map encodeCharList).flatten)

-- ===========================================================================
-- URLSearchParams serialization (query strings of getTemplates and
-- getToolCollection); application/x-www-form-urlencoded
-- ===========================================================================

/-- Characters kept verbatim by URLSearchParams serialization:
ASCII alphanumerics and * - . _ (space becomes a plus sign). -/
def isFormSafeChar (c : Char) : Bool :=
  (decide (65 ≤ c.toNat) && decide (c.toNat ≤ 90)) ||
  (decide (97 ≤ c.toNat) && decide (c.toNat ≤ 122)) ||
  (decide (48 ≤ c.toNat) && decide (c.toNat ≤ 57)) ||
  c == '*' || c == '-' || c == '.' || c == '_'

/-- Encoding of one character under URLSearchParams serialization. -/
def formEncodeCharList (c : Char) : List Char :=
  if c == ' ' then ['+']
  else if isFormSafeChar c then [c]
  else ((utf8Bytes c).map percentEncodeByteChars).flatten

/-- Form-encoding of a whole string. -/
def formEncode (s : String) : String :=
  String.mk ((s.data.map formEncodeCharList).flatten)

/-- Serialization of a URLSearchParams instance holding the given pairs in
insertion order: key=value joined with ampersands. -/
def searchParamsToString (ps : List (String × String)) : String :=
  String.intercalate "&" (ps.map fun p => formEncode p.1 ++ "=" ++ formEncode p.2)

-- ===========================================================================
-- Client configuration and operations (shared by both client files)
-- ===========================================================================

/-- Configuration options for the AgentVerticalClient (both client files):
base URL, an optional request timeout in milliseconds (default 30000), and
optional extra HTTP headers.  Headers never influence the verified
properties; they are carried for completeness. -/
structure AgentVerticalClientConfig where
  baseUrl : String
  timeoutMs : Option Nat
  headers : List (String × String)
deriving DecidableEq, Repr

/-- Configuration options for applying a template
(interface TemplateConfig in types.ts).  The parameter-override record
holds arbitrary JSON values in the source; the model keeps the serialized
form of each override. -/
structure TemplateConfig where
  template_name : String
  parameter_overrides : List (String × String)
  validate_before_apply : Option Bool
deriving DecidableEq, Repr

/-- The eight operations of the AgentVerticalClient interface, each with the
caller-supplied arguments that reach the request line. -/
inductive ClientOp where
  | getTemplates (domain : Option String) (limit : Option Nat)
  | applyTemplate (config : TemplateConfig)
  | validateTemplate (templateName : String)
  | getToolCollection (domain : Option String) (template_name : Option String)
  | getDomainConfig (domain : String)
  | getPromptPattern (domain : String)
  | listDomains
  | getTemplate (templateName : String)
deriving DecidableEq, Repr

/-- Effective request timeout: config.timeoutMs with the 30000 ms default
applied (the timeoutMs = 30_000 default in both client factories). -/
def clientTimeout (cfg : AgentVerticalClientConfig) : Nat :=
  cfg.timeoutMs.getD 30000

/-- Query pairs built for getTemplates, in insertion order: domain is set
first when present, then limit (stringified). -/
def templatesQuery (domain : Option String) (limit : Option Nat) :
    List (String × String) :=
  (match domain with
   | some d => [("domain", d)]
   | none => []) ++
  (match limit with
   | some n => [("limit", toString n)]
   | none => [])

/-- Query pairs built for getToolCollection, in insertion order: domain
first when present, then template_name. -/
def toolsQuery (domain : Option String) (templateName : Option String) :
    List (String × String) :=
  (match domain with
   | some d => [("domain", d)]
   | none => []) ++
  (match templateName with
   | some t => [("template_name", t)]
   | none => [])

-- ===========================================================================
-- Fetch-based client: request construction
-- ===========================================================================

/-- An HTTP request as issued by the fetch-based client: absolute URL,
method, and the timeout governing its AbortController. -/
structure HttpRequest where
  url : String
  method : String
  timeoutMs : Nat
deriving DecidableEq, Repr

/-- URL built by the fetch-based client for each operation, mirroring the
template literals in the client factory.  getTemplates appends a question
mark only when the query is nonempty; getToolCollection always appends it. -/
def fetchUrl (baseUrl : String) : ClientOp → String
  | .getTemplates d l =>
      let query := searchParamsToString (templatesQuery d l)
      baseUrl ++ "/vertical/templates" ++
        (if query = "" then "" else "?" ++ query)
  | .applyTemplate _ => baseUrl ++ "/vertical/templates/apply"
  | .validateTemplate n =>
      baseUrl ++ "/vertical/templates/" ++ encodeURIComponent n ++ "/validate"
  | .getToolCollection d t =>
      baseUrl ++ "/vertical/tools?" ++ searchParamsToString (toolsQuery d t)
  | .getDomainConfig d =>
      baseUrl ++ "/vertical/domains/" ++ encodeURIComponent d ++ "/config"
  | .getPromptPattern d =>
      baseUrl ++ "/vertical/domains/" ++ encodeURIComponent d ++ "/rules"
  | .listDomains => baseUrl ++ "/vertical/domains"
  | .getTemplate n =>
      baseUrl ++ "/vertical/templates/" ++ encodeURIComponent n

/-- HTTP method used by the fetch-based client for each operation: POST for
applyTemplate, GET for everything else (validateTemplate included). -/
def fetchMethod : ClientOp → String
  | .applyTemplate _ => "POST"
  | _ => "GET"

/-- The request a fetch-client operation issues, given the client
configuration. -/
def fetchRequest (cfg : AgentVerticalClientConfig) (op : ClientOp) :
    HttpRequest :=
  ⟨fetchUrl cfg.baseUrl op, fetchMethod op, clientTimeout cfg⟩

-- ===========================================================================
-- Fetch-based client: fetchJson
-- ===========================================================================

deriving instance DecidableEq for Except

/-- What the network does for one fetch call: either a response arrives
after delayMs carrying an HTTP status and a body that parses as JSON
(Except.ok) or fails to parse (Except.error with the parse-error message),
or the fetch promise rejects with a network failure. -/
inductive NetworkBehavior where
  | responds (delayMs : Nat) (status : Nat) (body : Except String JsonValue)
  | fails (message : String)
deriving DecidableEq, Repr

/-- Whether one fetch attempt is a transport-layer failure in the sense of
the spec: the fetch promise rejects (network failure), or the response has
not arrived when the AbortController fires at the timeout. -/
def isTransportFailure (timeoutMs : Nat) : NetworkBehavior → Bool
  | .responds delay _ _ => decide (timeoutMs ≤ delay)
  | .fails _ => true

/-- Message of the DOMException produced when an AbortController cancels a
fetch call. -/
def abortErrorMessage : String := "This operation was aborted"

/-- The Response.ok flag of the Fetch API: status in the range 200 to 299. -/
def fetchOk (status : Nat) : Bool :=
  decide (200 ≤ status) && decide (status ≤ 299)

/-- The fetchJson helper of the fetch-based client.  The timer aborts the
call when the response has not arrived within timeoutMs (the rejection is
caught like any other error: Network error with status 0).  When a response
arrives, its body is parsed as JSON before response.ok is inspected, so a
parse failure also lands in the catch branch with status 0.  A non-ok
response with a parsed body yields the body's error and detail fields with
the fallbacks "Unknown error" and the empty string, at the HTTP status.  An
ok response yields the ok-envelope around the body. -/
def fetchJson (timeoutMs : Nat) (net : NetworkBehavior) : ApiResult JsonValue :=
  match net with
  | .fails msg => .err ⟨"Network error", msg⟩ 0
  | .responds delay status body =>
      if timeoutMs ≤ delay then
        .err ⟨"Network error", abortErrorMessage⟩ 0
      else
        match body with
        | .error msg => .err ⟨"Network error", msg⟩ 0
        | .ok v =>
            if fetchOk status then .ok v
            else
              .err ⟨v.errorField.getD "Unknown error", v.detailField.getD ""⟩
                status

/-- One call of a fetch-client operation against a given network behavior:
the request is built from the configuration and fetchJson handles the
outcome under the configured timeout. -/
def runFetchOp (cfg : AgentVerticalClientConfig) (op : ClientOp)
    (net : NetworkBehavior) : ApiResult JsonValue :=
  fetchJson (fetchRequest cfg op).timeoutMs net

/-- One call of a fetch-client operation against a trace of network
behaviors, returning the result together with the number of HTTP requests
issued.  The implementation contains a single fetch call and no retry
loop, so exactly the first behavior is consumed and the count is 1. -/
def runFetchOpOnTrace (cfg : AgentVerticalClientConfig) (op : ClientOp)
    (trace : List NetworkBehavior) : Option (ApiResult JsonValue) × Nat :=
  match trace with
  | [] => (none, 0)
  | net :: _ => (some (runFetchOp cfg op net), 1)

-- ===========================================================================
-- sdk-core-based client: request construction and callApi
-- ===========================================================================

/-- Configuration handed to createHttpClient by the sdk-core-based client
factory: base URL, timeout with the 30000 ms default, default headers. -/
structure HttpClientInit where
  baseUrl : String
  timeout : Nat
  defaultHeaders : List (String × String)
deriving DecidableEq, Repr

/-- The createHttpClient argument built by createAgentVerticalClient in the
sdk-core-based client file. -/
def sdkHttpInit (cfg : AgentVerticalClientConfig) : HttpClientInit :=
  ⟨cfg.baseUrl, cfg.timeoutMs.getD 30000, cfg.headers⟩

/-- A request as handed to the sdk-core HttpClient: path relative to the
base URL, method, and query parameters. -/
structure SdkRequest where
  path : String
  method : String
  queryParams : List (String × String)
deriving DecidableEq, Repr

/-- The request each sdk-core-client operation hands to http.get or
http.post, mirroring the template literals in the client factory.
validateTemplate uses http.get, applyTemplate http.post. -/
def sdkRequest : ClientOp → SdkRequest
  | .getTemplates d l => ⟨"/vertical/templates", "GET", templatesQuery d l⟩
  | .applyTemplate _ => ⟨"/vertical/templates/apply", "POST", []⟩
  | .validateTemplate n =>
      ⟨"/vertical/templates/" ++ encodeURIComponent n ++ "/validate", "GET", []⟩
  | .getToolCollection d t => ⟨"/vertical/tools", "GET", toolsQuery d t⟩
  | .getDomainConfig d =>
      ⟨"/vertical/domains/" ++ encodeURIComponent d ++ "/config", "GET", []⟩
  | .getPromptPattern d =>
      ⟨"/vertical/domains/" ++ encodeURIComponent d ++ "/rules", "GET", []⟩
  | .listDomains => ⟨"/vertical/domains", "GET", []⟩
  | .getTemplate n =>
      ⟨"/vertical/templates/" ++ encodeURIComponent n, "GET", []⟩

/-- Outcome of one sdk-core operation() promise, as observed by callApi:
fulfilled with data and status, or rejected with one of the typed errors of
the sdk-core hierarchy (HttpError with message, optional body and status
code; TimeoutError; NetworkError; another AumosError with code, message and
optional status code), or rejected with any other thrown value whose
coerced message is carried. -/
inductive SdkOutcome (T : Type) where
  | success (data : T) (status : Nat)
  | httpError (message : String) (body : Option String) (statusCode : Nat)
  | timeoutError (message : String)
  | networkError (message : String)
  | aumosError (code : String) (message : String) (statusCode : Option Nat)
  | unexpected (message : String)
deriving DecidableEq, Repr

/-- Whether an sdk-core outcome is a transport-layer failure (timeout or
network error). -/
def isSdkTransportFailure {T : Type} : SdkOutcome T → Bool
  | .timeoutError _ => true
  | .networkError _ => true
  | _ => false

/-- The callApi adapter of the sdk-core-based client: success becomes the
ok-envelope around the data; HttpError keeps its message, stringified body
(empty when absent) and status code; TimeoutError becomes Request timed out
at status 0; NetworkError becomes Network error at status 0; another
AumosError keeps its code and message at its status code or 0; anything
else becomes Unexpected error at status 0. -/
def callApi {T : Type} : SdkOutcome T → ApiResult T
  | .success d _ => .ok d
  | .httpError msg body sc => .err ⟨msg, body.getD ""⟩ sc
  | .timeoutError msg => .err ⟨"Request timed out", msg⟩ 0
  | .networkError msg => .err ⟨"Network error", msg⟩ 0
  | .aumosError code msg sc => .err ⟨code, msg⟩ (sc.getD 0)
  | .unexpected msg => .err ⟨"Unexpected error", msg⟩ 0

/-- One call of an sdk-core-client operation: every operation wraps its
http call in callApi. -/
def runSdkOp (op : ClientOp) (outcome : SdkOutcome JsonValue) :
    ApiResult JsonValue :=
  match op, outcome with
  | _, o => callApi o

/-- Modelled from the spec: the sdk-core transport implementation is not
among the sources; the client file header documents that it provides
automatic retry with exponential back-off.  Given which attempts succeed
(succ i = true when the i-th attempt succeeds) and the remaining attempt
budget, counts the HTTP requests one operation call issues starting from
attempt i: it stops at the first success and otherwise retries until the
budget is exhausted. -/
def sdkRetryRequestsFrom (succ : Nat → Bool) : Nat → Nat → Nat
  | 0, _ => 0
  | budget + 1, i => if succ i then 1 else 1 + sdkRetryRequestsFrom succ budget (i + 1)

/-- Modelled from the spec: requests issued by one sdk-core-client call
under a retrying transport with the given total attempt budget. -/
def sdkRetryRequests (succ : Nat → Bool) (maxAttempts : Nat) : Nat :=
  sdkRetryRequestsFrom succ maxAttempts 0

-- ===========================================================================
-- Compliance engine (RuleMatcher / ComplianceChecker)
-- ===========================================================================

/-- The type of compliance rule (type RuleType in types.ts, mirroring the
RuleType enum of the Python engine). -/
inductive RuleType where
  | PROHIBITED_PHRASE
  | REQUIRED_DISCLAIMER
  | PROHIBITED_PATTERN
  | REQUIRED_PATTERN
deriving DecidableEq, Repr

/-- A single domain compliance rule (interface ComplianceRule in types.ts):
id, rule type, pattern string with is_regex flag, description, severity,
remediation. -/
structure ComplianceRule where
  rule_id : String
  rule_type : RuleType
  pattern : String
  description : String
  severity : String
  remediation : String
  is_regex : Bool
deriving DecidableEq, Repr

/-- Lowercasing of a character sequence. -/
def charsToLower (l : List Char) : List Char :=
  l.map Char.toLower

/-- Whether the first character sequence is a prefix of the second. -/
def isPrefixChars : List Char → List Char → Bool
  | [], _ => true
  | _ :: _, [] => false
  | a :: as, b :: bs => a == b && isPrefixChars as bs

/-- Whether the first character sequence occurs contiguously inside the
second. -/
def isInfixChars (pat : List Char) : List Char → Bool
  | [] => pat.isEmpty
  | b :: rest => isPrefixChars pat (b :: rest) || isInfixChars pat rest

/-- Case-insensitive literal containment: the lowercased pattern occurs as
a contiguous substring of the lowercased text. -/
def literalFound (pat text : String) : Bool :=
  isInfixChars (charsToLower pat.data) (charsToLower text.data)

/-- Modelled from the spec: the RuleMatcher implementation is not among the
sources.  Whether a rule's pattern is found in a text: a regex rule is
searched by the ambient regex engine (abstracted as the regexSearch
parameter, since the design prescribes no regex dialect); a non-regex rule
is tested by case-insensitive literal containment. -/
def patternFound (regexSearch : String → String → Bool)
    (r : ComplianceRule) (text : String) : Bool :=
  if r.is_regex then regexSearch r.pattern text
  else literalFound r.pattern text

/-- Modelled from the spec: whether a rule is violated by a text.  A
prohibited rule is violated when its pattern is found; a required rule is
violated when its pattern is absent (the polarity inversion of the
RuleMatcher contract). -/
def isViolation (regexSearch : String → String → Bool)
    (r : ComplianceRule) (text : String) : Bool :=
  match r.rule_type with
  | .PROHIBITED_PHRASE => patternFound regexSearch r text
  | .PROHIBITED_PATTERN => patternFound regexSearch r text
  | .REQUIRED_DISCLAIMER => !patternFound regexSearch r text
  | .REQUIRED_PATTERN => !patternFound regexSearch r text

/-- A reported violation (the Violation shape of the ComplianceChecker
contract): rule id, severity, remediation. -/
structure Violation where
  rule_id : String
  severity : String
  remediation : String
deriving DecidableEq, Repr

/-- Modelled from the spec: the ComplianceChecker implementation is not
among the sources.  check evaluates every rule in the given order with no
short-circuiting and reports one Violation per violated rule, preserving
rule order. -/
def ComplianceChecker.check (regexSearch : String → String → Bool)
    (rules : List ComplianceRule) (text : String) : List Violation :=
  rules.filterMap fun r =>
    if isViolation regexSearch r text then
      some ⟨r.rule_id, r.severity, r.remediation⟩
    else none

-- ===========================================================================
-- RiskTier and required certification checks
-- ===========================================================================

/-- Modelled from the spec: the RiskTier enum of the Python engine is not
among the sources.  Ordered risk classification tiers. -/
inductive RiskTier where
  | INFORMATIONAL
  | ADVISORY
  | DECISION_SUPPORT
deriving DecidableEq, Repr

/-- Numeric rank of a tier in the order INFORMATIONAL < ADVISORY <
DECISION_SUPPORT. -/
def RiskTier.rank : RiskTier → Nat
  | .INFORMATIONAL => 0
  | .ADVISORY => 1
  | .DECISION_SUPPORT => 2

/-- The certification check identifiers of the tier-to-checks table. -/
inductive CertCheck where
  | noCriticalSafetyViolations
  | disclaimerPresence
  | accuracyThreshold
  | groundedFractionMinimum
  | noHighSeverityViolations
deriving DecidableEq, Repr

/-- Modelled from the spec: the CertificationEvaluator implementation is
not among the sources.  The escalating tier-to-required-checks table:
INFORMATIONAL requires no critical safety violations; ADVISORY adds
disclaimer presence and the accuracy threshold; DECISION_SUPPORT adds the
grounded-fraction minimum and no violations of severity high or above. -/
def requiredChecks : RiskTier → List CertCheck
  | .INFORMATIONAL => [.noCriticalSafetyViolations]
  | .ADVISORY =>
      [.noCriticalSafetyViolations, .disclaimerPresence, .accuracyThreshold]
  | .DECISION_SUPPORT =>
      [.noCriticalSafetyViolations, .disclaimerPresence, .accuracyThreshold,
       .groundedFractionMinimum, .noHighSeverityViolations]

-- ===========================================================================
-- GroundingValidator
-- ===========================================================================

/-- Modelled from the spec: configuration of the GroundingValidator, whose
implementation is not among the sources.  Overlap threshold (default 0.6),
stop-word list, and the configurable disclaimer pattern abstracted as a
predicate on sentences. -/
structure GroundingConfig where
  overlapThreshold : ℚ
  stopWords : List String
  isDisclaimer : String → Bool

/-- Whether a character ends a sentence. -/
def isSentenceEnd (c : Char) : Bool :=
  c == '.' || c == '!' || c == '?'

/-- Splitting of a character sequence at every character satisfying the
predicate (separators dropped, empty fragments kept). -/
def splitOnPred (p : Char → Bool) : List Char → List (List Char)
  | [] => [[]]
  | c :: cs =>
      match splitOnPred p cs, p c with
      | rest, true => [] :: rest
      | [], false => [[c]]
      | g :: gs, false => (c :: g) :: gs

/-- Whitespace recognised when trimming sentence fragments. -/
def isSpaceChar (c : Char) : Bool :=
  c == ' ' || c == '\t' || c == '\n' || c == '\r'

/-- Removal of leading and trailing whitespace. -/
def trimChars (l : List Char) : List Char :=
  ((l.dropWhile isSpaceChar).reverse.dropWhile isSpaceChar).reverse

/-- Sentence-level segmentation: split on sentence-ending punctuation,
trim whitespace, drop empty fragments. -/
def splitSentences (s : String) : List String :=
  (((splitOnPred isSentenceEnd s.data).map
      (fun l => String.mk (trimChars l))).filter (fun t => t ≠ ""))

/-- Lowercased alphanumeric word tokens of a string. -/
def tokenize (s : String) : List String :=
  (((splitOnPred (fun c => !c.isAlphanum) (charsToLower s.data)).map
      String.mk).filter (fun t => t ≠ ""))

/-- Modelled from the spec: claim extraction of the GroundingValidator.
Sentences are the claims, except sentences matching the configured
disclaimer pattern, which are excluded from claim scoring. -/
def extractClaims (cfg : GroundingConfig) (response : String) : List String :=
  (splitSentences response).filter (fun s => !cfg.isDisclaimer s)

/-- Distinct content tokens of a claim: tokens minus stop-words, without
duplicates. -/
def contentTokens (cfg : GroundingConfig) (s : String) : List String :=
  ((tokenize s).filter (fun t => !cfg.stopWords.contains t)).dedup

/-- Modelled from the spec: fraction of a claim's content tokens present in
one knowledge-base source text.  A claim with no content tokens is counted
as fully covered. -/
def overlapFraction (cfg : GroundingConfig) (claim source : String) : ℚ :=
  let ctoks := contentTokens cfg claim
  let stoks := tokenize source
  if ctoks.length = 0 then 1
  else ((ctoks.filter (fun t => stoks.contains t)).length : ℚ) / ctoks.length

/-- Modelled from the spec: a claim is supported when its lexical overlap
with some knowledge-base entry reaches the configured threshold. -/
def claimSupported (cfg : GroundingConfig) (kb : List (String × String))
    (claim : String) : Bool :=
  kb.any fun e => decide (cfg.overlapThreshold ≤ overlapFraction cfg claim e.2)

/-- Per-claim record of the GroundingResult: claim text and support flag. -/
structure ClaimRecord where
  claim : String
  supported : Bool
deriving DecidableEq, Repr

/-- The GroundingResult: per-claim records and the aggregate grounded
fraction. -/
structure GroundingResult where
  records : List ClaimRecord
  groundedFraction : ℚ
deriving DecidableEq, Repr

/-- Modelled from the spec: the aggregate grounded fraction, defined as
supported over total, and as 1 when the total is 0 so that trivially short
responses are never blocked by a division by zero. -/
def groundedFraction (supported total : Nat) : ℚ :=
  if total = 0 then 1 else (supported : ℚ) / total

/-- Modelled from the spec: the validate operation of the
GroundingValidator.  Claims are extracted, each is scored against the
knowledge base, and the aggregate fraction is computed from the support
counts. -/
def GroundingValidator.validate (cfg : GroundingConfig) (response : String)
    (kb : List (String × String)) : GroundingResult :=
  let claims := extractClaims cfg response
  let recs := claims.map fun c => ClaimRecord.mk c (claimSupported cfg kb c)
  ⟨recs, groundedFraction ((recs.filter (fun r => r.supported)).length)
    recs.length⟩

-- ===========================================================================
-- Template validation result (types.ts), for reference in the C4 discussion
-- ===========================================================================

/-- Result of validating a domain template
(interface TemplateValidationResult in types.ts): valid flag, warnings,
template name. -/
structure TemplateValidationResult where
  valid : Bool
  warnings : List String
  template_name : String
deriving DecidableEq, Repr

-- ===========================================================================
-- Helper lemmas
-- ===========================================================================

/-- Every ApiResult is exactly one of the two envelope shapes. -/
theorem apiResult_shape {T : Type} (r : ApiResult T) :
    ((∃ d, r = ApiResult.ok d) ∧ ¬∃ e s, r = ApiResult.err e s) ∨
    ((∃ e s, r = ApiResult.err e s) ∧ ¬∃ d, r = ApiResult.ok d) := by
  cases r with
  | ok d => exact Or.inl ⟨⟨d, rfl⟩, by rintro ⟨e, s, h⟩; cases h⟩
  | err e s => exact Or.inr ⟨⟨e, s, rfl⟩, by rintro ⟨d, h⟩; cases h⟩

/-- A transport failure makes fetchJson return an error envelope with
status 0. -/
theorem fetchJson_transport_status_zero (timeoutMs : Nat)
    (net : NetworkBehavior) (h : isTransportFailure timeoutMs net = true) :
    ∃ e, fetchJson timeoutMs net = ApiResult.err e 0 := by
  cases net with
  | fails msg => exact ⟨⟨"Network error", msg⟩, rfl⟩
  | responds delay status body =>
      simp only [isTransportFailure, decide_eq_true_eq] at h
      exact ⟨⟨"Network error", abortErrorMessage⟩, by
        simp only [fetchJson, if_pos h]⟩

-- ===========================================================================
-- Claims
-- ===========================================================================

/-- C1: for every client operation of either client and every outcome of
the underlying HTTP call (success, HTTP error response, timeout, network
failure, body-parse failure, unexpected exception), the returned value is
exactly one of the two envelope shapes ok-with-data or
error-with-ApiError-and-status; in this embedding both adapters are total
functions into the ApiResult type, so no call path escapes the envelope
(the implementations never reject: every thrown error is caught and
converted). -/
theorem C1_uniform_envelope (cfg : AgentVerticalClientConfig) (op : ClientOp)
    (net : NetworkBehavior) (outcome : SdkOutcome JsonValue) :
    (((∃ d, runFetchOp cfg op net = ApiResult.ok d) ∧
        ¬∃ e s, runFetchOp cfg op net = ApiResult.err e s) ∨
      ((∃ e s, runFetchOp cfg op net = ApiResult.err e s) ∧
        ¬∃ d, runFetchOp cfg op net = ApiResult.ok d)) ∧
    (((∃ d, runSdkOp op outcome = ApiResult.ok d) ∧
        ¬∃ e s, runSdkOp op outcome = ApiResult.err e s) ∨
      ((∃ e s, runSdkOp op outcome = ApiResult.err e s) ∧
        ¬∃ d, runSdkOp op outcome = ApiResult.ok d)) :=
  ⟨apiResult_shape _, apiResult_shape _⟩

/-- C2 counterexample: the claim that a single call issues the underlying
HTTP request at most once fails for the sdk-core-based client, whose
transport (per the client file's own header documentation) retries
automatically with exponential back-off: under a trace whose first attempt
fails and second succeeds, with an attempt budget of 3, one call issues 2
requests. -/
theorem C2_counterexample :
    sdkRetryRequests (fun i => decide (1 ≤ i)) 3 = 2 ∧
    ¬sdkRetryRequests (fun i => decide (1 ≤ i)) 3 ≤ 1 := by
  constructor
  · rfl
  · decide

/-- C2 (amended): transport errors (network failure or timeout) are
surfaced to the caller with status 0 by both clients; the fetch-based
client issues the underlying HTTP request exactly once per call (it
consumes only the first network behavior of any trace, with request count
1); the sdk-core-based client delegates transport to a layer documented to
retry automatically, so one of its calls can issue more than one request. -/
theorem C2_amended (cfg : AgentVerticalClientConfig) (op : ClientOp)
    (net : NetworkBehavior) (trace : List NetworkBehavior)
    (outcome : SdkOutcome JsonValue) :
    (isTransportFailure (fetchRequest cfg op).timeoutMs net = true →
      ∃ e, runFetchOp cfg op net = ApiResult.err e 0) ∧
    (isSdkTransportFailure outcome = true →
      ∃ e, runSdkOp op outcome = ApiResult.err e 0) ∧
    runFetchOpOnTrace cfg op (net :: trace) =
      (some (runFetchOp cfg op net), 1) ∧
    ∃ succ maxAttempts, 1 < sdkRetryRequests succ maxAttempts := by
  refine ⟨fun h => fetchJson_transport_status_zero _ _ h, fun h => ?_, rfl,
    ⟨fun i => decide (1 ≤ i), 3, by decide⟩⟩
  cases outcome with
  | timeoutError msg => exact ⟨⟨"Request timed out", msg⟩, rfl⟩
  | networkError msg => exact ⟨⟨"Network error", msg⟩, rfl⟩
  | success d s => cases h
  | httpError m b sc => cases h
  | aumosError c m sc => cases h
  | unexpected m => cases h

/-- C2 witness: the amended statement applied at a concrete configuration,
operation and outcomes, with all hypotheses discharged. -/
theorem C2_amended_witness :
    (∃ e, runFetchOp ⟨"http://h", none, []⟩ ClientOp.listDomains
        (NetworkBehavior.fails "connection refused") = ApiResult.err e 0) ∧
    ∃ e, runSdkOp ClientOp.listDomains
        (SdkOutcome.timeoutError "deadline") = ApiResult.err e 0 :=
  ⟨(C2_amended ⟨"http://h", none, []⟩ ClientOp.listDomains
      (NetworkBehavior.fails "connection refused") []
      (SdkOutcome.timeoutError "deadline")).1 (by decide),
   (C2_amended ⟨"http://h", none, []⟩ ClientOp.listDomains
      (NetworkBehavior.fails "connection refused") []
      (SdkOutcome.timeoutError "deadline")).2.1 (by decide)⟩

/-- C3 counterexample: the claim that a failure envelope has status 0 if
and only if the failure was transport-layer fails in the fetch-based
client: a server-reported HTTP 500 response whose body is not valid JSON
is returned with status 0 even though the failure is not transport-layer. -/
theorem C3_counterexample :
    runFetchOp ⟨"http://h", none, []⟩ ClientOp.listDomains
        (NetworkBehavior.responds 10 500 (Except.error "Unexpected token")) =
      ApiResult.err ⟨"Network error", "Unexpected token"⟩ 0 ∧
    isTransportFailure
        (fetchRequest ⟨"http://h", none, []⟩ ClientOp.listDomains).timeoutMs
        (NetworkBehavior.responds 10 500 (Except.error "Unexpected token")) =
      false := by
  constructor
  · rfl
  · rfl

/-- C3 (amended): transport-layer failures (timeout or network error) are
always surfaced with status 0 by both clients, and a server-reported HTTP
error whose body parses as JSON (fetch client) or arrives as a typed
HttpError (sdk-core client) is returned with its HTTP status code in the
status field; however, status 0 is also produced by non-transport failures
(a response body that fails to parse as JSON, an unexpected exception), so
status 0 does not imply a transport-layer failure. -/
theorem C3_amended (cfg : AgentVerticalClientConfig) (op : ClientOp)
    (net : NetworkBehavior) (outcome : SdkOutcome JsonValue) :
    (isTransportFailure (fetchRequest cfg op).timeoutMs net = true →
      ∃ e, runFetchOp cfg op net = ApiResult.err e 0) ∧
    (∀ delay status v, delay < (fetchRequest cfg op).timeoutMs →
      fetchOk status = false →
      runFetchOp cfg op (NetworkBehavior.responds delay status (Except.ok v)) =
        ApiResult.err
          ⟨v.errorField.getD "Unknown error", v.detailField.getD ""⟩ status) ∧
    (isSdkTransportFailure outcome = true →
      ∃ e, runSdkOp op outcome = ApiResult.err e 0) ∧
    (∀ msg body sc, runSdkOp op (SdkOutcome.httpError msg body sc) =
      ApiResult.err ⟨msg, body.getD ""⟩ sc) := by
  refine ⟨fun h => fetchJson_transport_status_zero _ _ h,
    fun delay status v hd hok => ?_, fun h => ?_, fun msg body sc => rfl⟩
  · simp only [runFetchOp, fetchJson, if_neg (Nat.not_le.mpr hd), hok,
      Bool.false_eq_true, if_false]
  · cases outcome with
    | timeoutError msg => exact ⟨⟨"Request timed out", msg⟩, rfl⟩
    | networkError msg => exact ⟨⟨"Network error", msg⟩, rfl⟩
    | success d s => cases h
    | httpError m b sc => cases h
    | aumosError c m sc => cases h
    | unexpected m => cases h

/-- C3 witness: the amended statement applied at a concrete configuration
and concrete outcomes, with all hypotheses discharged. -/
theorem C3_amended_witness :
    (∃ e, runFetchOp ⟨"http://h", none, []⟩ ClientOp.listDomains
        (NetworkBehavior.responds 50000 200 (Except.ok ⟨"d", none, none⟩)) =
      ApiResult.err e 0) ∧
    runFetchOp ⟨"http://h", none, []⟩ ClientOp.listDomains
        (NetworkBehavior.responds 10 404
          (Except.ok ⟨"b", some "Not found", some "no such domain"⟩)) =
      ApiResult.err ⟨"Not found", "no such domain"⟩ 404 ∧
    (∃ e, runSdkOp ClientOp.listDomains
        (SdkOutcome.networkError "dns failure" (T := JsonValue)) =
      ApiResult.err e 0) ∧
    runSdkOp ClientOp.listDomains
        (SdkOutcome.httpError "Server error" (some "boom") 502) =
      ApiResult.err ⟨"Server error", "boom"⟩ 502 := by
  refine ⟨(C3_amended ⟨"http://h", none, []⟩ ClientOp.listDomains
      (NetworkBehavior.responds 50000 200 (Except.ok ⟨"d", none, none⟩))
      (SdkOutcome.networkError "dns failure")).1 (by decide), ?_, ?_, ?_⟩
  · exact (C3_amended ⟨"http://h", none, []⟩ ClientOp.listDomains
      (NetworkBehavior.responds 10 404
        (Except.ok ⟨"b", some "Not found", some "no such domain"⟩))
      (SdkOutcome.networkError "dns failure")).2.1 10 404
      ⟨"b", some "Not found", some "no such domain"⟩ (by decide) (by decide)
  · exact (C3_amended ⟨"http://h", none, []⟩ ClientOp.listDomains
      (NetworkBehavior.fails "x")
      (SdkOutcome.networkError "dns failure")).2.2.1 (by decide)
  · exact (C3_amended ⟨"http://h", none, []⟩ ClientOp.listDomains
      (NetworkBehavior.fails "x")
      (SdkOutcome.httpError "Server error" (some "boom") 502)).2.2.2
      "Server error" (some "boom") 502

/-- C4 counterexample: the claim that validateTemplate issues a POST
request is false: both client implementations issue a GET request to the
validate endpoint. -/
theorem C4_counterexample :
    (fetchRequest ⟨"http://h", none, []⟩
        (ClientOp.validateTemplate "t")).method = "GET" ∧
    (sdkRequest (ClientOp.validateTemplate "t")).method = "GET" ∧
    ("GET" : String) ≠ "POST" := by
  refine ⟨rfl, rfl, by decide⟩

/-- C4 (amended): for every template name, validateTemplate invokes the
validate endpoint as a GET request to
/vertical/templates/name-percent-encoded/validate in both clients (the
response is typed as a TemplateValidationResult with fields valid,
warnings and template_name). -/
theorem C4_amended (cfg : AgentVerticalClientConfig) (name : String) :
    fetchRequest cfg (ClientOp.validateTemplate name) =
      ⟨cfg.baseUrl ++ "/vertical/templates/" ++ encodeURIComponent name ++
        "/validate", "GET", clientTimeout cfg⟩ ∧
    sdkRequest (ClientOp.validateTemplate name) =
      ⟨"/vertical/templates/" ++ encodeURIComponent name ++ "/validate",
        "GET", []⟩ :=
  ⟨rfl, rfl⟩

/-- C5: for every compliance rule of a prohibited type and every text, the
checker reports a violation exactly when the pattern is found in the text,
and for every rule of a required type it reports a violation exactly when
the pattern is absent, for literal and regex patterns alike (the regex
engine is abstracted as a parameter, so the inversion holds for every
regex dialect). -/
theorem C5_polarity_inversion (regexSearch : String → String → Bool)
    (r : ComplianceRule) (text : String) :
    ((r.rule_type = RuleType.PROHIBITED_PHRASE ∨
        r.rule_type = RuleType.PROHIBITED_PATTERN) →
      (ComplianceChecker.check regexSearch [r] text ≠ [] ↔
        patternFound regexSearch r text = true)) ∧
    ((r.rule_type = RuleType.REQUIRED_DISCLAIMER ∨
        r.rule_type = RuleType.REQUIRED_PATTERN) →
      (ComplianceChecker.check regexSearch [r] text ≠ [] ↔
        patternFound regexSearch r text = false)) := by
  have hcheck : ComplianceChecker.check regexSearch [r] text ≠ [] ↔
      isViolation regexSearch r text = true := by
    cases hv : isViolation regexSearch r text <;>
      simp [ComplianceChecker.check, hv]
  constructor <;> rintro (h | h) <;> rw [hcheck] <;>
    simp [isViolation, h]

/-- C5 witness: a required-disclaimer rule whose phrase is absent from the
response is reported as a violation, and a prohibited-phrase rule whose
phrase occurs (case-insensitively) is reported as a violation. -/
theorem C5_witness :
    ComplianceChecker.check (fun _ _ => false)
      [⟨"adv.disclaimer", RuleType.REQUIRED_DISCLAIMER,
        "this is not medical advice", "", "medium", "add the disclaimer",
        false⟩] "The dosage is 5mg" ≠ [] ∧
    ComplianceChecker.check (fun _ _ => false)
      [⟨"fin.no_guarantee", RuleType.PROHIBITED_PHRASE,
        "guarantee", "", "high", "remove the guarantee",
        false⟩] "We GUARANTEE high returns" ≠ [] :=
  ⟨((C5_polarity_inversion (fun _ _ => false)
      ⟨"adv.disclaimer", RuleType.REQUIRED_DISCLAIMER,
        "this is not medical advice", "", "medium", "add the disclaimer",
        false⟩ "The dosage is 5mg").2 (Or.inl rfl)).mpr (by decide),
   ((C5_polarity_inversion (fun _ _ => false)
      ⟨"fin.no_guarantee", RuleType.PROHIBITED_PHRASE,
        "guarantee", "", "high", "remove the guarantee",
        false⟩ "We GUARANTEE high returns").1 (Or.inl rfl)).mpr (by decide)⟩

/-- C6: certification requirements escalate monotonically with the risk
tier: whenever one tier ranks at or below another, every check required at
the lower tier is also required at the higher tier, so DECISION_SUPPORT
requires a superset of ADVISORY, which requires a superset of
INFORMATIONAL, and requirements are never relaxed. -/
theorem C6_riskTier_monotonic (t1 t2 : RiskTier)
    (h : t1.rank ≤ t2.rank) :
    requiredChecks t1 ⊆ requiredChecks t2 := by
  revert h; cases t1 <;> cases t2 <;> decide

/-- C6 witness: the monotonicity theorem applied to the ADVISORY and
DECISION_SUPPORT tiers. -/
theorem C6_witness :
    RiskTier.ADVISORY.rank ≤ RiskTier.DECISION_SUPPORT.rank ∧
    requiredChecks RiskTier.ADVISORY ⊆
      requiredChecks RiskTier.DECISION_SUPPORT :=
  ⟨by decide, C6_riskTier_monotonic RiskTier.ADVISORY
    RiskTier.DECISION_SUPPORT (by decide)⟩

/-- C7: for every response from which the GroundingValidator extracts zero
claims, the aggregate grounded fraction equals 1, because the
supported-over-total division is defined as 1 when the total is 0. -/
theorem C7_grounded_fraction_empty (cfg : GroundingConfig)
    (response : String) (kb : List (String × String))
    (h : extractClaims cfg response = []) :
    (GroundingValidator.validate cfg response kb).groundedFraction = 1 := by
  simp [GroundingValidator.validate, h, groundedFraction]

/-- C7 witness: the empty response yields zero extracted claims and a
grounded fraction of 1. -/
theorem C7_witness :
    extractClaims ⟨3 / 5, [], fun _ => false⟩ "" = [] ∧
    (GroundingValidator.validate ⟨3 / 5, [], fun _ => false⟩ ""
      []).groundedFraction = 1 :=
  ⟨rfl, C7_grounded_fraction_empty ⟨3 / 5, [], fun _ => false⟩ "" [] rfl⟩

/-- C8: when the configuration omits timeoutMs, every operation of both
clients uses a request timeout of exactly 30000 milliseconds, and an
elapsed timeout resolves to a failure envelope with status 0 (error
Network error in the fetch-based client, Request timed out in the
sdk-core-based client) rather than throwing. -/
theorem C8_default_timeout (cfg : AgentVerticalClientConfig) (op : ClientOp)
    (h : cfg.timeoutMs = none) :
    (fetchRequest cfg op).timeoutMs = 30000 ∧
    (sdkHttpInit cfg).timeout = 30000 ∧
    (∀ delay status body, 30000 ≤ delay →
      runFetchOp cfg op (NetworkBehavior.responds delay status body) =
        ApiResult.err ⟨"Network error", abortErrorMessage⟩ 0) ∧
    (∀ msg, runSdkOp op (SdkOutcome.timeoutError msg (T := JsonValue)) =
      ApiResult.err ⟨"Request timed out", msg⟩ 0) := by
  have ht : clientTimeout cfg = 30000 := by simp [clientTimeout, h]
  refine ⟨ht, by simp [sdkHttpInit, h], fun delay status body hd => ?_,
    fun msg => rfl⟩
  show fetchJson (fetchRequest cfg op).timeoutMs _ = _
  have ht2 : (fetchRequest cfg op).timeoutMs = 30000 := ht
  rw [ht2]
  simp only [fetchJson, if_pos hd]

/-- C8 witness: the default-timeout theorem applied at a concrete
configuration without timeoutMs, at the timeout boundary. -/
theorem C8_witness :
    (fetchRequest ⟨"http://h", none, []⟩ ClientOp.listDomains).timeoutMs =
      30000 ∧
    runFetchOp ⟨"http://h", none, []⟩ ClientOp.listDomains
        (NetworkBehavior.responds 30000 200 (Except.ok ⟨"d", none, none⟩)) =
      ApiResult.err ⟨"Network error", abortErrorMessage⟩ 0 ∧
    runSdkOp ClientOp.listDomains
        (SdkOutcome.timeoutError "deadline" (T := JsonValue)) =
      ApiResult.err ⟨"Request timed out", "deadline"⟩ 0 :=
  ⟨(C8_default_timeout ⟨"http://h", none, []⟩ ClientOp.listDomains rfl).1,
   (C8_default_timeout ⟨"http://h", none, []⟩
      ClientOp.listDomains rfl).2.2.1 30000 200
      (Except.ok ⟨"d", none, none⟩) (Nat.le_refl 30000),
   (C8_default_timeout ⟨"http://h", none, []⟩
      ClientOp.listDomains rfl).2.2.2 "deadline"⟩

/-- C9: the fetch-based client parses the response body as JSON before
inspecting the HTTP status, so every in-time response whose body is not
valid JSON, server-reported error responses included, is returned as
Network error with the parse message at status 0 instead of an envelope
carrying the HTTP status code. -/
theorem C9_parse_before_status (cfg : AgentVerticalClientConfig)
    (op : ClientOp) (delay status : Nat) (msg : String)
    (h : delay < (fetchRequest cfg op).timeoutMs) :
    runFetchOp cfg op
        (NetworkBehavior.responds delay status (Except.error msg)) =
      ApiResult.err ⟨"Network error", msg⟩ 0 := by
  show fetchJson (fetchRequest cfg op).timeoutMs _ = _
  simp only [fetchJson, if_neg (Nat.not_le.mpr h)]

/-- C9 witness: a prompt HTTP 500 response with an unparseable body is
returned with status 0, not 500. -/
theorem C9_witness :
    0 < (fetchRequest ⟨"http://h", none, []⟩ ClientOp.listDomains).timeoutMs ∧
    runFetchOp ⟨"http://h", none, []⟩ ClientOp.listDomains
        (NetworkBehavior.responds 0 500
          (Except.error "Unexpected token < in JSON")) =
      ApiResult.err ⟨"Network error", "Unexpected token < in JSON"⟩ 0 :=
  ⟨by decide, C9_parse_before_status ⟨"http://h", none, []⟩
    ClientOp.listDomains 0 500 "Unexpected token < in JSON" (by decide)⟩

/-- Hex digits never render as a slash. -/
theorem percentEncode_no_slash (b : Nat) (c : Char)
    (hc : c ∈ percentEncodeByteChars b) : c ≠ '/' := by
  have hball : ∀ m, m < 16 → uriHexDigit m ≠ '/' := by decide
  simp only [percentEncodeByteChars, List.mem_cons,
    List.not_mem_nil, or_false] at hc
  rcases hc with rfl | rfl | rfl
  · decide
  · exact hball _ (Nat.mod_lt _ (by decide))
  · exact hball _ (Nat.mod_lt _ (by decide))

/-- The encoding of a single character never contains a slash. -/
theorem encodeCharList_no_slash (ch c : Char)
    (hc : c ∈ encodeCharList ch) : c ≠ '/' := by
  unfold encodeCharList at hc
  by_cases h : isUnreservedURIChar ch
  · rw [if_pos h] at hc
    simp only [List.mem_singleton] at hc
    subst hc
    rintro rfl
    exact absurd h (by decide)
  · rw [if_neg h] at hc
    simp only [List.mem_flatten, List.mem_map] at hc
    obtain ⟨l, ⟨b, hb, rfl⟩, hcl⟩ := hc
    exact percentEncode_no_slash b c hcl

/-- The output of encodeURIComponent never contains a slash. -/
theorem encodeURIComponent_no_slash (s : String) (c : Char)
    (hc : c ∈ (encodeURIComponent s).data) : c ≠ '/' := by
  simp only [encodeURIComponent, List.mem_flatten, List.mem_map] at hc
  obtain ⟨l, ⟨ch, hch, rfl⟩, hcl⟩ := hc
  exact encodeCharList_no_slash ch c hcl

/-- C10: getTemplate, validateTemplate, getDomainConfig and
getPromptPattern embed the caller-supplied template name or domain in the
request URL only through encodeURIComponent, in both clients, and the
encoded value never contains a slash, so it always occupies a single path
segment regardless of the characters it contains. -/
theorem C10_path_segment_encoding (cfg : AgentVerticalClientConfig)
    (name domain : String) :
    (fetchRequest cfg (ClientOp.getTemplate name)).url =
      cfg.baseUrl ++ "/vertical/templates/" ++ encodeURIComponent name ∧
    (fetchRequest cfg (ClientOp.validateTemplate name)).url =
      cfg.baseUrl ++ "/vertical/templates/" ++ encodeURIComponent name ++
        "/validate" ∧
    (fetchRequest cfg (ClientOp.getDomainConfig domain)).url =
      cfg.baseUrl ++ "/vertical/domains/" ++ encodeURIComponent domain ++
        "/config" ∧
    (fetchRequest cfg (ClientOp.getPromptPattern domain)).url =
      cfg.baseUrl ++ "/vertical/domains/" ++ encodeURIComponent domain ++
        "/rules" ∧
    (sdkRequest (ClientOp.getTemplate name)).path =
      "/vertical/templates/" ++ encodeURIComponent name ∧
    (sdkRequest (ClientOp.validateTemplate name)).path =
      "/vertical/templates/" ++ encodeURIComponent name ++ "/validate" ∧
    (sdkRequest (ClientOp.getDomainConfig domain)).path =
      "/vertical/domains/" ++ encodeURIComponent domain ++ "/config" ∧
    (sdkRequest (ClientOp.getPromptPattern domain)).path =
      "/vertical/domains/" ++ encodeURIComponent domain ++ "/rules" ∧
    ∀ s : String, ∀ c ∈ (encodeURIComponent s).data, c ≠ '/' :=
  ⟨rfl, rfl, rfl, rfl, rfl, rfl, rfl, rfl,
    fun s c hc => encodeURIComponent_no_slash s c hc⟩

/-- C10 witness: a template name containing a slash is embedded
percent-encoded, and the percent sign in its encoding is not a slash. -/
theorem C10_witness :
    (fetchRequest ⟨"http://h", none, []⟩ (ClientOp.getTemplate "a/b")).url =
      "http://h" ++ "/vertical/templates/" ++ encodeURIComponent "a/b" ∧
    ('%' : Char) ≠ '/' :=
  ⟨(C10_path_segment_encoding ⟨"http://h", none, []⟩ "a/b" "d").1,
   (C10_path_segment_encoding
      ⟨"http://h", none, []⟩ "a/b" "d").2.2.2.2.2.2.2.2 "a/b" '%'
      (by decide)⟩

end AgentVertical
